import Mathlib

/-!
Verification of the student-report program (`i.bruno@alustudent.com_il.py`).

Shallow embedding: the three Python classes `Assignment`, `Course`, `Student`
become Lean structures; their numeric fields become exact rationals `ℚ`;
the free-form string fields (`assignment_type`, attendance `status`,
`sort_order`) stay `String`, matching the unvalidated Python strings.
Mutating methods (`add_assignment`, `mark_attendance`, `add_course`) are
modelled as state-passing functions returning the updated object.
Python's `sorted` is a stable sort; it is modelled by `List.mergeSort`
with the corresponding boolean comparator.  `calculate_attendance`
performs an unguarded division, which in Python raises `ZeroDivisionError`
when `total_sessions` is `0`; the fallible call is modelled as `Option ℚ`
with `none` standing for the raised exception.
-/

/-- Embeds the Python class `Assignment`: `__init__(name, score, weight, assignment_type)`. -/
structure Assignment where
  name : String
  score : ℚ
  weight : ℚ
  assignment_type : String
deriving DecidableEq

/-- Python `Assignment.get_weighted_score`: `return self.score * self.weight / 100`. -/
def Assignment.get_weighted_score (a : Assignment) : ℚ :=
  a.score * a.weight / 100

/-- Embeds the Python class `Course`: `__init__(name, total_sessions)` plus the
two list fields it initialises (`assignments = []`, `attendance = []`,
the latter a list of `(date, status)` tuples). -/
structure Course where
  name : String
  total_sessions : ℕ
  assignments : List Assignment
  attendance : List (String × String)
deriving DecidableEq

/-- Python `Course.__init__`: a fresh course has empty assignment and attendance lists. -/
def Course.init (name : String) (total_sessions : ℕ) : Course :=
  ⟨name, total_sessions, [], []⟩

/-- Python `Course.add_assignment`: `self.assignments.append(assignment)`. -/
def Course.add_assignment (c : Course) (a : Assignment) : Course :=
  { c with assignments := c.assignments ++ [a] }

/-- Python `Course.mark_attendance`: `self.attendance.append((date, status))`. -/
def Course.mark_attendance (c : Course) (date status : String) : Course :=
  { c with attendance := c.attendance ++ [(date, status)] }

/-- Python `Course.calculate_attendance`:
`total_present = sum(1 for _, status in self.attendance if status == 'Present')`
then `return (total_present / self.total_sessions) * 100`.
The division is unguarded in the source: when `total_sessions` is `0` Python
raises `ZeroDivisionError`, modelled here as `none`. -/
def Course.calculate_attendance (c : Course) : Option ℚ :=
  let total_present := (c.attendance.filter (fun r => r.2 == "Present")).length
  if c.total_sessions = 0 then none
  else some (((total_present : ℚ) / (c.total_sessions : ℚ)) * 100)

/-- Python `Course.calculate_group_score(group_type)`: starts from
`total_weight = 0`, `total_weighted_score = 0` and loops over
`self.assignments`, accumulating weight and weighted score of the
assignments whose `assignment_type` equals `group_type`; returns
`(total_weight, total_weighted_score)`. -/
def Course.calculate_group_score (c : Course) (group_type : String) : ℚ × ℚ :=
  c.assignments.foldl
    (fun acc a =>
      if a.assignment_type == group_type then
        (acc.1 + a.weight, acc.2 + a.get_weighted_score)
      else acc)
    (0, 0)

/-- Python `Course.check_progression`: unpacks `(weight, score)` for each group,
computes each group total as `score / weight * 100 if weight else 0`
(Python truthiness: a numeric `weight` is falsy exactly when it is zero),
and returns `(passed, formative_total, summative_total)` with
`passed = (formative_total >= 30) and (summative_total >= 20)`. -/
def Course.check_progression (c : Course) : Bool × ℚ × ℚ :=
  let formative_weight := (c.calculate_group_score "Formative").1
  let formative_score := (c.calculate_group_score "Formative").2
  let summative_weight := (c.calculate_group_score "Summative").1
  let summative_score := (c.calculate_group_score "Summative").2
  let formative_total : ℚ :=
    if formative_weight ≠ 0 then formative_score / formative_weight * 100 else 0
  let summative_total : ℚ :=
    if summative_weight ≠ 0 then summative_score / summative_weight * 100 else 0
  let pass_formative := decide (formative_total ≥ 30)
  let pass_summative := decide (summative_total ≥ 20)
  (pass_formative && pass_summative, formative_total, summative_total)

/-- Python `Course.get_resubmission_candidates`: the list comprehension
`[a.name for a in self.assignments if a.score < 50 and a.assignment_type == 'Formative']`. -/
def Course.get_resubmission_candidates (c : Course) : List String :=
  (c.assignments.filter
      (fun a => decide (a.score < 50) && (a.assignment_type == "Formative"))).map
    (fun a => a.name)

/-- Python `Course.generate_transcript(sort_order)`:
`sorted(self.assignments, key=lambda x: x.score, reverse=(sort_order == "descending"))`.
Python's `sorted` is a stable sort on the key; with `reverse=True` ties still
keep their original relative order, which is exactly a stable sort under the
comparator `b.score ≤ a.score`.  Modelled with the stable `List.mergeSort`. -/
def Course.generate_transcript (c : Course) (sort_order : String) : List Assignment :=
  let rev := sort_order == "descending"
  c.assignments.mergeSort
    (fun a b => if rev then decide (b.score ≤ a.score) else decide (a.score ≤ b.score))

/-- The full effect of a call `course.generate_transcript(sort_order)` on the
receiver: `sorted(...)` allocates a new list and reads `self.assignments`
without assigning to any attribute, so the post-state of the course is the
course itself, returned alongside the sorted list. -/
def Course.generate_transcript_call (c : Course) (sort_order : String) :
    List Assignment × Course :=
  (c.generate_transcript sort_order, c)

/-- Embeds the Python class `Student`: `__init__(name, email)` with `courses = []`. -/
structure Student where
  name : String
  email : String
  courses : List Course
deriving DecidableEq

/-- Python `Student.add_course`: `self.courses.append(course)`. -/
def Student.add_course (s : Student) (c : Course) : Student :=
  { s with courses := s.courses ++ [c] }

/-- Python `Student.calculate_gpa`: starts from `total_weighted_score = 0`,
`total_weight = 0`, loops over every assignment of every course adding
`get_weighted_score()` and `weight`, then returns
`(total_weighted_score / total_weight) * 100 if total_weight else 0`. -/
def Student.calculate_gpa (s : Student) : ℚ :=
  let acc :=
    s.courses.foldl
      (fun acc course =>
        course.assignments.foldl
          (fun acc a => (acc.1 + a.get_weighted_score, acc.2 + a.weight))
          acc)
      (0, 0)
  if acc.2 ≠ 0 then acc.1 / acc.2 * 100 else 0

/-- The accumulation loop of `Student.generate_report` (the per-course
`for assignment in course.assignments` block): it appends a row
`[course.name, assignment.name, score, weight, weighted score]` to
`table_data` and adds `get_weighted_score()` to
`total_weighted_score_all_courses` and `weight` to
`total_weight_all_courses`.  The state is
`(table_data, total_weighted_score_all_courses, total_weight_all_courses)`. -/
def Student.report_accumulate (s : Student) :
    List (String × String × ℚ × ℚ × ℚ) × ℚ × ℚ :=
  s.courses.foldl
    (fun acc course =>
      course.assignments.foldl
        (fun acc a =>
          (acc.1 ++ [(course.name, a.name, a.score, a.weight, a.get_weighted_score)],
           acc.2.1 + a.get_weighted_score,
           acc.2.2 + a.weight))
        acc)
    ([], 0, 0)

/-- The `Overall Average Score` value emitted by `Student.generate_report`:
`(total_weighted_score_all_courses / total_weight_all_courses) * 100 if total_weight_all_courses else 0`. -/
def Student.report_overall_avg_score (s : Student) : ℚ :=
  let acc := s.report_accumulate
  if acc.2.2 ≠ 0 then acc.2.1 / acc.2.2 * 100 else 0

/-- The sample course `course_1` built at the bottom of the script:
three assignments and seven `Present` attendance marks, `total_sessions=7`. -/
def course_1 : Course :=
  ((((((((((Course.init "Introduction to Programming and Databases" 7).add_assignment
      ⟨"Python - Hello, World", 100, 10, "Formative"⟩).add_assignment
      ⟨"Python - Inheritance", 40.59, 20, "Formative"⟩).add_assignment
      ⟨"Python - Data Structures", 100, 30, "Summative"⟩).mark_attendance "Sep 16" "Present").mark_attendance
      "Sep 17" "Present").mark_attendance "Sep 18" "Present").mark_attendance
      "Sep 19" "Present").mark_attendance "Sep 20" "Present").mark_attendance
      "Sep 21" "Present").mark_attendance "Sep 22" "Present"

/-- The sample course `course_2` from the script. -/
def course_2 : Course :=
  (((Course.init "Self-Leadership and Team Dynamics" 7).add_assignment
      ⟨"Enneagram Test", 80, 10, "Formative"⟩).add_assignment
      ⟨"Empathy Discussion Board", 65, 20, "Formative"⟩).add_assignment
      ⟨"Community Building Quiz", 90, 20, "Summative"⟩

/-- The sample course `course_3` from the script. -/
def course_3 : Course :=
  ((((((Course.init "Introduction to IT Tools and Linux" 10).add_assignment
      ⟨"Pre-reading Sunday 1", 90, 10, "Formative"⟩).add_assignment
      ⟨"Discussion Board", 100, 20, "Formative"⟩).add_assignment
      ⟨"In Call Check-in Quiz 1", 65, 15, "Formative"⟩).add_assignment
      ⟨"Pre-reading Sunday 2", 83.33, 15, "Formative"⟩).add_assignment
      ⟨"General Quiz", 75.51, 15, "Formative"⟩).add_assignment
      ⟨"Shell, processes and signals", 100, 25, "Summative"⟩

/-- The sample student from the script, with the three courses added. -/
def sampleStudent : Student :=
  (((Student.mk "ISHIMWE Bruno" "i.bruno@alustudent.com" []).add_course
      course_1).add_course course_2).add_course course_3

/-- Helper: the accumulating loop of `calculate_group_score`, from an arbitrary
starting pair, adds exactly the weight sum and weighted-score sum of the
assignments matching the group type. -/
theorem group_foldl_eq (t : String) (l : List Assignment) :
    ∀ p : ℚ × ℚ,
      l.foldl
        (fun acc a =>
          if a.assignment_type == t then
            (acc.1 + a.weight, acc.2 + a.get_weighted_score)
          else acc)
        p
      = (p.1 + ((l.filter (fun a => a.assignment_type == t)).map (fun a => a.weight)).sum,
         p.2 + ((l.filter (fun a => a.assignment_type == t)).map
            Assignment.get_weighted_score).sum) := by
  induction l with
  | nil => intro p; simp
  | cons a l ih =>
    intro p
    by_cases h : (a.assignment_type == t) = true
    · simp only [List.foldl_cons, List.filter_cons, h, if_pos, List.map_cons, List.sum_cons, ih]
      rw [Prod.mk.injEq]
      constructor <;> ring
    · simp only [List.foldl_cons, List.filter_cons, h, ih]
      simp

/-- Helper: closed form of `calculate_group_score` as sums over the filtered
assignment list. -/
theorem calculate_group_score_eq (c : Course) (t : String) :
    c.calculate_group_score t =
      (((c.assignments.filter (fun a => a.assignment_type == t)).map (fun a => a.weight)).sum,
       ((c.assignments.filter (fun a => a.assignment_type == t)).map
          Assignment.get_weighted_score).sum) := by
  unfold Course.calculate_group_score
  rw [group_foldl_eq]
  simp

/-- C4: for every Assignment — whatever its name, type, and numeric values,
including negative scores or weights and values above 100, which no code path
rejects — `get_weighted_score` returns `score * weight / 100`. -/
theorem get_weighted_score_spec (name : String) (score weight : ℚ) (t : String) :
    (Assignment.mk name score weight t).get_weighted_score = score * weight / 100 :=
  rfl

/-- C5: for every Course and assignment type, `calculate_group_score` returns
the pair (sum of weights, sum of weighted scores) over exactly the assignments
whose `assignment_type` equals the given type, and returns `(0, 0)` — not an
error — when no assignment matches the type. -/
theorem calculate_group_score_spec (c : Course) (t : String) :
    c.calculate_group_score t =
      (((c.assignments.filter (fun a => a.assignment_type == t)).map (fun a => a.weight)).sum,
       ((c.assignments.filter (fun a => a.assignment_type == t)).map
          Assignment.get_weighted_score).sum) ∧
    ((∀ a ∈ c.assignments, a.assignment_type ≠ t) → c.calculate_group_score t = (0, 0)) := by
  refine ⟨calculate_group_score_eq c t, fun hnone => ?_⟩
  rw [calculate_group_score_eq c t]
  have hfil : c.assignments.filter (fun a => a.assignment_type == t) = [] := by
    rw [List.filter_eq_nil_iff]
    intro a ha
    simpa using hnone a ha
  rw [hfil]
  simp

/-- Witness for C5 at a concrete input: the sample `course_2` has no assignment
of type `"Homework"`, and its group totals for that type are `(0, 0)`. -/
theorem calculate_group_score_spec_witness :
    course_2.calculate_group_score "Homework" = (0, 0) :=
  (calculate_group_score_spec course_2 "Homework").2 (by decide)

/-- C3 counterexample: on a concrete Course whose `total_sessions` is `0` (one
`Present` record marked), `calculate_attendance` does not return any default
value: the unguarded division raises `ZeroDivisionError` (modelled as `none`). -/
theorem calculate_attendance_zero_sessions_cex :
    ((Course.init "Walking Campus" 0).mark_attendance "Sep 16" "Present").calculate_attendance
      = none :=
  rfl

/-- C3 amended: for every Course whose `total_sessions` is `0`,
`calculate_attendance` is NOT guarded against division by zero — the division
raises `ZeroDivisionError` (modelled as `none`) instead of returning a
conditional default value. -/
theorem calculate_attendance_zero_sessions (c : Course) (h : c.total_sessions = 0) :
    c.calculate_attendance = none := by
  unfold Course.calculate_attendance
  rw [if_pos h]

/-- Witness for the amended C3 at a concrete input. -/
theorem calculate_attendance_zero_sessions_witness :
    (Course.init "Walking Campus II" 0).calculate_attendance = none :=
  calculate_attendance_zero_sessions (Course.init "Walking Campus II" 0) rfl

/-- Helper: the inner assignment loop of `calculate_gpa`, from an arbitrary
starting pair, adds the weighted-score sum and the weight sum of the list. -/
theorem gpa_inner_foldl_eq (l : List Assignment) :
    ∀ p : ℚ × ℚ,
      l.foldl (fun acc a => (acc.1 + a.get_weighted_score, acc.2 + a.weight)) p
      = (p.1 + (l.map Assignment.get_weighted_score).sum,
         p.2 + (l.map (fun a => a.weight)).sum) := by
  induction l with
  | nil => intro p; simp
  | cons a l ih =>
    intro p
    simp only [List.foldl_cons, List.map_cons, List.sum_cons, ih]
    rw [Prod.mk.injEq]
    constructor <;> ring

/-- Helper: the nested course/assignment loop of `calculate_gpa` adds the sums
taken over the concatenation of all courses' assignment lists. -/
theorem gpa_outer_foldl_eq (cs : List Course) :
    ∀ p : ℚ × ℚ,
      cs.foldl
        (fun acc course =>
          course.assignments.foldl
            (fun acc a => (acc.1 + a.get_weighted_score, acc.2 + a.weight))
            acc)
        p
      = (p.1 + ((cs.flatMap (fun course => course.assignments)).map
            Assignment.get_weighted_score).sum,
         p.2 + ((cs.flatMap (fun course => course.assignments)).map
            (fun a => a.weight)).sum) := by
  induction cs with
  | nil => intro p; simp
  | cons c cs ih =>
    intro p
    rw [List.foldl_cons, gpa_inner_foldl_eq, ih]
    simp only [List.flatMap_cons, List.map_append, List.sum_append]
    rw [Prod.mk.injEq]
    constructor <;> ring

/-- Helper: closed form of `calculate_gpa` as a quotient of sums over the list
of all assignments of all courses. -/
theorem calculate_gpa_eq (s : Student) :
    s.calculate_gpa =
      if ((s.courses.flatMap (fun course => course.assignments)).map
            (fun a => a.weight)).sum = 0 then 0
      else ((s.courses.flatMap (fun course => course.assignments)).map
              Assignment.get_weighted_score).sum /
           ((s.courses.flatMap (fun course => course.assignments)).map
              (fun a => a.weight)).sum * 100 := by
  unfold Student.calculate_gpa
  rw [gpa_outer_foldl_eq]
  simp only [zero_add]
  by_cases h : ((s.courses.flatMap (fun course => course.assignments)).map
      (fun a => a.weight)).sum = 0
  · rw [if_neg (by simpa using h), if_pos h]
  · rw [if_pos h, if_neg (by simpa using h)]

/-- C2: for every Student, `calculate_gpa` returns the sum of weighted scores
of all assignments of all courses divided by the sum of all their weights,
times 100, and returns 0 — not a division error — whenever the total weight is
0, in particular when the student has no assignments at all. -/
theorem calculate_gpa_spec (s : Student) :
    (s.calculate_gpa =
      if ((s.courses.flatMap (fun course => course.assignments)).map
            (fun a => a.weight)).sum = 0 then 0
      else ((s.courses.flatMap (fun course => course.assignments)).map
              Assignment.get_weighted_score).sum /
           ((s.courses.flatMap (fun course => course.assignments)).map
              (fun a => a.weight)).sum * 100) ∧
    (s.courses.flatMap (fun course => course.assignments) = [] → s.calculate_gpa = 0) := by
  refine ⟨calculate_gpa_eq s, fun hempty => ?_⟩
  rw [calculate_gpa_eq s, hempty]
  simp

/-- Witness for C2 at a concrete input: a student with no courses has GPA 0. -/
theorem calculate_gpa_spec_witness :
    (Student.mk "Empty Student" "empty@alustudent.com" []).calculate_gpa = 0 :=
  (calculate_gpa_spec (Student.mk "Empty Student" "empty@alustudent.com" [])).2 rfl

/-- Helper: the inner assignment loop of `generate_report` carries the table
rows alongside the two numeric accumulators; its numeric part is exactly the
inner loop of `calculate_gpa`, and the rows are appended in order. -/
theorem report_inner_foldl_eq (cn : String) (l : List Assignment) :
    ∀ (rows : List (String × String × ℚ × ℚ × ℚ)) (p : ℚ × ℚ),
      l.foldl
        (fun acc a =>
          (acc.1 ++ [(cn, a.name, a.score, a.weight, a.get_weighted_score)],
           acc.2.1 + a.get_weighted_score,
           acc.2.2 + a.weight))
        (rows, p)
      = (rows ++ l.map (fun a => (cn, a.name, a.score, a.weight, a.get_weighted_score)),
         l.foldl (fun acc a => (acc.1 + a.get_weighted_score, acc.2 + a.weight)) p) := by
  induction l with
  | nil => intro rows p; simp
  | cons a l ih =>
    intro rows p
    rw [List.foldl_cons, ih]
    simp [List.append_assoc]

/-- Helper: the numeric part of the nested report accumulation equals the
nested accumulation of `calculate_gpa`, for any starting rows and pair. -/
theorem report_outer_foldl_snd (cs : List Course) :
    ∀ (rows : List (String × String × ℚ × ℚ × ℚ)) (p : ℚ × ℚ),
      (cs.foldl
        (fun acc course =>
          course.assignments.foldl
            (fun acc a =>
              (acc.1 ++ [(course.name, a.name, a.score, a.weight, a.get_weighted_score)],
               acc.2.1 + a.get_weighted_score,
               acc.2.2 + a.weight))
            acc)
        (rows, p)).2
      = cs.foldl
          (fun acc course =>
            course.assignments.foldl
              (fun acc a => (acc.1 + a.get_weighted_score, acc.2 + a.weight))
              acc)
          p := by
  induction cs with
  | nil => intro rows p; rfl
  | cons c cs ih =>
    intro rows p
    rw [List.foldl_cons, report_inner_foldl_eq, ih, List.foldl_cons]

/-- C8: the `Overall Average Score` value emitted by `generate_report` is
mathematically identical to the `Overall GPA` value: the per-assignment
accumulation inside `generate_report` computes the same number as
`calculate_gpa`, including both returning 0 when the total weight is 0. -/
theorem report_overall_avg_score_eq_gpa (s : Student) :
    s.report_overall_avg_score = s.calculate_gpa := by
  simp only [Student.report_overall_avg_score, Student.report_accumulate,
    Student.calculate_gpa]
  rw [report_outer_foldl_snd]

/-- C1: for every Course, `check_progression` returns `formative_total` equal
to the Formative weighted-score sum divided by the Formative weight sum times
100 (and 0 when the Formative weight sum is 0), `summative_total` computed
analogously over Summative assignments, and `passed` true if and only if
`formative_total ≥ 30` and `summative_total ≥ 20`. -/
theorem check_progression_spec (c : Course) :
    c.check_progression.2.1 =
      (if ((c.assignments.filter (fun a => a.assignment_type == "Formative")).map
            (fun a => a.weight)).sum = 0 then 0
       else ((c.assignments.filter (fun a => a.assignment_type == "Formative")).map
              Assignment.get_weighted_score).sum /
            ((c.assignments.filter (fun a => a.assignment_type == "Formative")).map
              (fun a => a.weight)).sum * 100) ∧
    c.check_progression.2.2 =
      (if ((c.assignments.filter (fun a => a.assignment_type == "Summative")).map
            (fun a => a.weight)).sum = 0 then 0
       else ((c.assignments.filter (fun a => a.assignment_type == "Summative")).map
              Assignment.get_weighted_score).sum /
            ((c.assignments.filter (fun a => a.assignment_type == "Summative")).map
              (fun a => a.weight)).sum * 100) ∧
    (c.check_progression.1 = true ↔
      (c.check_progression.2.1 ≥ 30 ∧ c.check_progression.2.2 ≥ 20)) := by
  simp only [Course.check_progression, calculate_group_score_eq, ne_eq, ite_not]
  refine ⟨trivial, trivial, ?_⟩
  simp only [Bool.and_eq_true, decide_eq_true_eq]

/-- C6: for every Course, `get_resubmission_candidates` returns exactly the
names of the assignments that are Formative and have score below 50 (the list
comprehension over the insertion-ordered assignment list); a name is a member
of the result exactly when some Formative assignment scoring below 50 bears
it, so no Summative assignment is ever selected, regardless of its score. -/
theorem get_resubmission_candidates_spec (c : Course) :
    (∀ n : String, n ∈ c.get_resubmission_candidates ↔
      ∃ a ∈ c.assignments, a.name = n ∧ a.score < 50 ∧ a.assignment_type = "Formative") ∧
    c.get_resubmission_candidates =
      (c.assignments.filter
          (fun a => decide (a.score < 50) && (a.assignment_type == "Formative"))).map
        (fun a => a.name) := by
  refine ⟨fun n => ?_, rfl⟩
  simp only [Course.get_resubmission_candidates, List.mem_map, List.mem_filter,
    Bool.and_eq_true, decide_eq_true_eq, beq_iff_eq]
  constructor
  · rintro ⟨a, ⟨ha, hs, ht⟩, hn⟩
    exact ⟨a, ha, hn, hs, ht⟩
  · rintro ⟨a, ha, hn, hs, ht⟩
    exact ⟨a, ⟨ha, hs, ht⟩, hn⟩

/-- Helper: a stable sort leaves the subsequence of elements sharing any one
key value untouched: filtering the output of `mergeSort` by a predicate on
which the comparator is reflexive-in-both-directions gives back the filter of
the input, in the same order. -/
theorem mergeSort_filter_key (le : Assignment → Assignment → Bool)
    (htrans : ∀ a b c, le a b = true → le b c = true → le a c = true)
    (htot : ∀ a b, (le a b || le b a) = true)
    (l : List Assignment) (p : Assignment → Bool)
    (hp : ∀ a b, p a = true → p b = true → le a b = true) :
    (l.mergeSort le).filter p = l.filter p := by
  have hsub : List.Sublist (l.filter p) (l.mergeSort le) :=
    List.sublist_mergeSort htrans htot
      (List.pairwise_of_forall_mem_list fun a ha b hb =>
        hp a b (List.of_mem_filter ha) (List.of_mem_filter hb))
      (List.filter_sublist l)
  have h2 : List.Sublist (l.filter p) ((l.mergeSort le).filter p) := by
    have h3 := hsub.filter p
    rwa [List.filter_filter,
      show (fun a => p a && p a) = p from funext fun a => Bool.and_self (p a)] at h3
  have hlen : ((l.mergeSort le).filter p).length = (l.filter p).length :=
    ((List.mergeSort_perm l le).filter p).length_eq
  exact (h2.eq_of_length hlen.symm).symm

/-- Helper: the descending comparator used by `generate_transcript` is
transitive. -/
theorem desc_trans (a b c : Assignment) (hab : decide (b.score ≤ a.score) = true)
    (hbc : decide (c.score ≤ b.score) = true) : decide (c.score ≤ a.score) = true := by
  simp only [decide_eq_true_eq] at *
  exact le_trans hbc hab

/-- Helper: the descending comparator used by `generate_transcript` is total. -/
theorem desc_total (a b : Assignment) :
    (decide (b.score ≤ a.score) || decide (a.score ≤ b.score)) = true := by
  simp only [Bool.or_eq_true, decide_eq_true_eq]
  exact le_total b.score a.score

/-- Helper: the ascending comparator used by `generate_transcript` is
transitive. -/
theorem asc_trans (a b c : Assignment) (hab : decide (a.score ≤ b.score) = true)
    (hbc : decide (b.score ≤ c.score) = true) : decide (a.score ≤ c.score) = true := by
  simp only [decide_eq_true_eq] at *
  exact le_trans hab hbc

/-- Helper: the ascending comparator used by `generate_transcript` is total. -/
theorem asc_total (a b : Assignment) :
    (decide (a.score ≤ b.score) || decide (b.score ≤ a.score)) = true := by
  simp only [Bool.or_eq_true, decide_eq_true_eq]
  exact le_total a.score b.score

/-- C7: for every Course and sort order, `generate_transcript` returns the
assignments sorted by score — descending when the order argument is
`"descending"`, ascending otherwise — and the sort is stable: for any score
value, the assignments carrying that score appear in the output in exactly the
same relative order as in the course's insertion-ordered assignment list. -/
theorem generate_transcript_spec (c : Course) (sort_order : String) :
    List.Perm (c.generate_transcript sort_order) c.assignments ∧
    (c.generate_transcript sort_order).Pairwise
      (fun a b =>
        if sort_order = "descending" then b.score ≤ a.score else a.score ≤ b.score) ∧
    (∀ q : ℚ, (c.generate_transcript sort_order).filter (fun a => a.score == q) =
      c.assignments.filter (fun a => a.score == q)) := by
  by_cases h : sort_order = "descending"
  · have hle : c.generate_transcript sort_order =
        c.assignments.mergeSort (fun a b => decide (b.score ≤ a.score)) := by
      simp [Course.generate_transcript, h]
    have hR : (fun a b : Assignment =>
          if sort_order = "descending" then b.score ≤ a.score else a.score ≤ b.score)
        = fun a b : Assignment => b.score ≤ a.score := by
      funext a b
      rw [if_pos h]
    rw [hle, hR]
    refine ⟨List.mergeSort_perm _ _, ?_, fun q => ?_⟩
    · exact (List.sorted_mergeSort desc_trans desc_total c.assignments).imp
        fun hab => by simpa using hab
    · exact mergeSort_filter_key _ desc_trans desc_total c.assignments _
        fun a b ha hb => by
          simp only [beq_iff_eq] at ha hb
          simp [ha, hb]
  · have hle : c.generate_transcript sort_order =
        c.assignments.mergeSort (fun a b => decide (a.score ≤ b.score)) := by
      simp [Course.generate_transcript, h]
    have hR : (fun a b : Assignment =>
          if sort_order = "descending" then b.score ≤ a.score else a.score ≤ b.score)
        = fun a b : Assignment => a.score ≤ b.score := by
      funext a b
      rw [if_neg h]
    rw [hle, hR]
    refine ⟨List.mergeSort_perm _ _, ?_, fun q => ?_⟩
    · exact (List.sorted_mergeSort asc_trans asc_total c.assignments).imp
        fun hab => by simpa using hab
    · exact mergeSort_filter_key _ asc_trans asc_total c.assignments _
        fun a b ha hb => by
          simp only [beq_iff_eq] at ha hb
          simp [ha, hb]

/-- C10: a call to `generate_transcript` is a read-only view: it returns a new
sequence holding exactly the course's assignments (a permutation of them) and
the post-state of the course is unchanged in every field — the assignments
list keeps its insertion order and contents, and attendance and
`total_sessions` are untouched — for either sort order. -/
theorem generate_transcript_call_frame (c : Course) (sort_order : String) :
    ((c.generate_transcript_call sort_order).2 = c ∧
     (c.generate_transcript_call sort_order).2.assignments = c.assignments ∧
     (c.generate_transcript_call sort_order).2.attendance = c.attendance ∧
     (c.generate_transcript_call sort_order).2.total_sessions = c.total_sessions) ∧
    List.Perm (c.generate_transcript_call sort_order).1 c.assignments := by
  refine ⟨⟨rfl, rfl, rfl, rfl⟩, ?_⟩
  exact List.mergeSort_perm _ _

/-- C9: for every Course with nonzero `total_sessions`,
`calculate_attendance` returns the count of attendance records whose status is
`"Present"` divided by the configured `total_sessions`, times 100; it is 100
when `total_sessions` is 7 and exactly 7 `"Present"` records exist, and it
exceeds 100 whenever more `"Present"` records have been marked than
`total_sessions`, since the divisor is the configured `total_sessions`, not
the number of recorded entries. -/
theorem calculate_attendance_spec (c : Course) (h : c.total_sessions ≠ 0) :
    c.calculate_attendance =
      some ((((c.attendance.filter (fun r => r.2 == "Present")).length : ℚ) /
        (c.total_sessions : ℚ)) * 100) ∧
    (c.total_sessions = 7 →
      (c.attendance.filter (fun r => r.2 == "Present")).length = 7 →
      c.calculate_attendance = some 100) ∧
    ((c.attendance.filter (fun r => r.2 == "Present")).length > c.total_sessions →
      ∃ q : ℚ, c.calculate_attendance = some q ∧ 100 < q) := by
  have hmain : c.calculate_attendance =
      some ((((c.attendance.filter (fun r => r.2 == "Present")).length : ℚ) /
        (c.total_sessions : ℚ)) * 100) := by
    simp only [Course.calculate_attendance]
    rw [if_neg h]
  refine ⟨hmain, fun h7 hp7 => ?_, fun hgt => ?_⟩
  · rw [hmain, h7, hp7]
    norm_num
  · refine ⟨_, hmain, ?_⟩
    have ht : (0 : ℚ) < (c.total_sessions : ℚ) := by
      exact_mod_cast Nat.pos_of_ne_zero h
    have hlt : (c.total_sessions : ℚ) <
        ((c.attendance.filter (fun r => r.2 == "Present")).length : ℚ) := by
      exact_mod_cast hgt
    have h1 : (1 : ℚ) <
        ((c.attendance.filter (fun r => r.2 == "Present")).length : ℚ) /
          (c.total_sessions : ℚ) :=
      (one_lt_div ht).mpr hlt
    nlinarith [h1]

/-- Witness for C9 at the sample `course_1`: `total_sessions = 7` with seven
`Present` records yields exactly 100 percent. -/
theorem calculate_attendance_spec_witness :
    course_1.calculate_attendance = some 100 :=
  (calculate_attendance_spec course_1 (by decide)).2.1 (by decide) (by decide)
